import Mathlib

/-!
Verification of the relay-lib solver core against its specification.

The Go sources are shallowly embedded: pure helpers become Lean functions,
the SQL statements of the persistence layer become functions on an explicit
list-of-rows database state, and each RPC-driven routine becomes a function
of an explicit environment record carrying the results the RPC client would
return.  Machine integers (uint64 slots, big.Int gas prices) are modelled as
Nat with explicit wrap-around where the Go code can wrap.
-/

namespace RelayLib

/-! ## Byte-level helpers: chains/evm/utils/extract_quote.go -/

/-- Go's `hextable` constant: the sixteen lowercase hexadecimal digit
characters in value order, as used by `hex.EncodeToString`. -/
def hextable : String := "0123456789abcdef"

/-- The `hextable` alphabet as a list of characters. -/
def hexDigits : List Char := hextable.toList

/-- Hex digit for a value `n < 16` (out-of-range values default to `'0'`,
which never happens for bytes). -/
def hexDigit (n : Nat) : Char := hexDigits.getD n '0'

/-- `hex.EncodeToString`: each byte becomes two lowercase hex digits,
high nibble first. -/
def hexEncodeToString (bs : List Nat) : String :=
  String.mk ((bs.map (fun b => [hexDigit (b / 16), hexDigit (b % 16)])).flatten)

/-- `minTransferInputLength`: 4 bytes selector + 32 bytes quoteId slot +
32 bytes amount slot. -/
def minTransferInputLength : Nat := 68

/-- `ExtractQuoteIDFromTxData` from chains/evm/utils/extract_quote.go:
reject calldata of length ≤ 68, otherwise hex-encode everything after
byte offset 68. -/
def ExtractQuoteIDFromTxData (data : List Nat) : Except String String :=
  if data.length ≤ minTransferInputLength then
    .error "invalid transaction input length"
  else
    let quoteIDBytes := data.drop minTransferInputLength
    if quoteIDBytes.length = 0 then
      .error "quote ID is empty"
    else
      .ok (hexEncodeToString quoteIDBytes)

/-! ## EVM transactions: chains/evm/wait_transaction.go -/

/-- A go-ethereum transaction as used by the stuck-transaction code:
either a legacy tx (`txType = 0`) or an EIP-1559 dynamic-fee tx
(`txType = 2`). -/
structure EthTx where
  txType : Nat
  chainId : Nat
  nonce : Nat
  toAddr : Option String
  value : Int
  gas : Nat
  gasPrice : Nat
  gasTipCap : Nat
  gasFeeCap : Nat
  txData : List Nat
  deriving Repr, DecidableEq

/-- `tx.GasPrice()` in go-ethereum: the legacy gas price for legacy
transactions and the fee cap for dynamic-fee transactions. -/
def EthTx.gasPriceValue (t : EthTx) : Nat :=
  if t.txType = 2 then t.gasFeeCap else t.gasPrice

/-- `ethtypes.NewTransaction(nonce, to, value, gas, price, data)`: a legacy
transaction; its tip and fee cap both read back as the gas price. -/
def mkLegacyTx (chainId nonce : Nat) (toAddr : String) (value : Int)
    (gas price : Nat) (txData : List Nat) : EthTx :=
  { txType := 0, chainId := chainId, nonce := nonce, toAddr := some toAddr
    value := value, gas := gas, gasPrice := price
    gasTipCap := price, gasFeeCap := price, txData := txData }

/-- `ethtypes.NewTx(&ethtypes.DynamicFeeTx{...})`: an EIP-1559 transaction;
`GasPrice()` reads back the fee cap. -/
def mkDynamicTx (chainId nonce : Nat) (toAddr : Option String) (value : Int)
    (gas tipCap feeCap : Nat) (txData : List Nat) : EthTx :=
  { txType := 2, chainId := chainId, nonce := nonce, toAddr := toAddr
    value := value, gas := gas, gasPrice := feeCap
    gasTipCap := tipCap, gasFeeCap := feeCap, txData := txData }

/-- `gasIncreaseFactor = 110`: minimum replacement bump in percent. -/
def gasIncreaseFactor : Nat := 110

/-- `getNewGasPrice`: given the fetched current network gas price (or the
fetch failure) and the old transaction, pick the replacement gas price.
The code computes `minGasPrice = old * 110 / 100` and returns the current
network price only when it is strictly greater. -/
def getNewGasPrice (currentGasPriceResult : Except Unit Nat) (oldTx : EthTx) :
    Except Unit Nat :=
  match currentGasPriceResult with
  | .error _ => .error ()
  | .ok currentGasPrice =>
      let oldGasPrice := oldTx.gasPriceValue
      let minGasPrice := oldGasPrice * gasIncreaseFactor / 100
      if currentGasPrice > minGasPrice then .ok currentGasPrice
      else .ok minGasPrice

/-! ## Stuck-transaction handling: chains/evm/wait_transaction.go -/

/-- The tri-valued transaction status of the façade
(`TxDone`, `TxFailed`, `TxNeedsRetry`). -/
inductive TransactionStatus where
  | done
  | failed
  | needsRetry
  deriving Repr, DecidableEq

/-- Result of a Go call that may return a value, return an error, or crash
with a nil-pointer dereference. -/
inductive GoResult (α : Type) where
  | ok (a : α)
  | fail (msg : String)
  | panicked
  deriving Repr, DecidableEq

/-- What a run of `handleStuckTransaction` does: return a status with the
error message it carries, or crash with a nil-pointer dereference. -/
inductive StuckOutcome where
  | returned (status : TransactionStatus) (errMsg : String)
  | panicked
  deriving Repr, DecidableEq

/-- The RPC-visible environment of one `handleStuckTransaction` run.
Each field is what the corresponding client call would return; the two
`TransactionByHash` lookups (one in `replaceTransaction`, one in
`cancelTransaction`) and the two sign/send pairs are distinct calls and
get distinct fields.  `profitable` is the verdict of
`calculateTransactionProfitability`, whose body lives outside the embedded
sources and is treated as an oracle here. -/
structure EvmEnv where
  clientInit : Bool
  signerInit : Bool
  signerAddress : String
  cfgTxType : Nat
  cfgChainId : Nat
  replTxByHash : Except Unit (EthTx × Bool)
  currentGasPrice : Except Unit Nat
  profitable : Bool
  replSignOk : Bool
  replSendOk : Bool
  cancTxByHash : Except Unit (EthTx × Bool)
  cancSignOk : Bool
  cancSendOk : Bool
  deriving Repr

/-- `signAndSendTransaction`: fails when client or signer is missing, when
signing fails, or when broadcasting fails; otherwise returns the signed
transaction (whose replay-relevant content is that of its input). -/
def signAndSendTransaction (env : EvmEnv) (signOk sendOk : Bool)
    (tx : EthTx) : Except String EthTx :=
  if env.clientInit = false ∨ env.signerInit = false then
    .error "client or signer not initialized"
  else if signOk = false then .error "failed to sign transaction"
  else if sendOk = false then .error "failed to send transaction"
  else .ok tx

/-- The self-send zero-value cancel transaction built by
`cancelTransaction` for the pending transaction `t` at gas price
`price`. -/
def buildCancelTx (env : EvmEnv) (t : EthTx) (price : Nat) : EthTx :=
  if env.cfgTxType = 2 then
    mkDynamicTx env.cfgChainId t.nonce (some env.signerAddress) 0
      21000 t.gasTipCap price []
  else
    mkLegacyTx env.cfgChainId t.nonce env.signerAddress 0 21000 price []

/-- `cancelTransaction`: look up the transaction; if it is no longer
pending return `(nil, nil)` (modelled `.ok none`); otherwise self-send a
zero-value transaction at the same nonce with gas price
`old * 150 / 100`. -/
def cancelTransaction (env : EvmEnv) : GoResult (Option EthTx) :=
  if env.clientInit = false then .fail "client not initialized"
  else
    match env.cancTxByHash with
    | .error _ => .fail "failed to get transaction by hash"
    | .ok (t, pending) =>
        if pending = false then .ok none
        else
          let gasPrice := t.gasPriceValue * 150 / 100
          match signAndSendTransaction env env.cancSignOk env.cancSendOk
              (buildCancelTx env t gasPrice) with
          | .error msg => .fail msg
          | .ok sent => .ok (some sent)

/-- The replacement transaction built by `replaceTransaction` from the old
pending transaction and the new gas price: identical nonce, recipient,
value, data and gas limit; for EIP-1559 the original tip is kept and only
the fee cap changes. -/
def buildReplacementTx (oldTx : EthTx) (newGasPrice : Nat) : EthTx :=
  if oldTx.txType = 2 then
    mkDynamicTx oldTx.chainId oldTx.nonce oldTx.toAddr oldTx.value
      oldTx.gas oldTx.gasTipCap newGasPrice oldTx.txData
  else
    mkLegacyTx oldTx.chainId oldTx.nonce (oldTx.toAddr.getD "") oldTx.value
      oldTx.gas newGasPrice oldTx.txData

/-- `replaceTransaction`: mirrors the Go control flow.  When the original
is no longer pending the function returns `(nil, nil)` (`.ok none`).
When the profitability check fails the code tries to cancel; if the cancel
call returns without error the function again returns `(nil, nil)`
(logging the cancel hash, which crashes if that cancel result was itself
nil); if the cancel call errors, control falls through and the replacement
is built, signed and submitted anyway. -/
def replaceTransaction (env : EvmEnv) : GoResult (Option EthTx) :=
  if env.clientInit = false then .fail "client not initialized"
  else
    match env.replTxByHash with
    | .error _ => .fail "failed to get transaction by hash"
    | .ok (oldTx, pending) =>
        if pending = false then .ok none
        else
          match getNewGasPrice env.currentGasPrice oldTx with
          | .error _ => .fail "failed to calculate new gas price"
          | .ok newGasPrice =>
              let unprofitableEarlyReturn : Option (GoResult (Option EthTx)) :=
                if env.profitable = false then
                  match cancelTransaction env with
                  | .ok (some _) => some (.ok none)
                  | .ok none => some .panicked
                  | .fail _ => none
                  | .panicked => some .panicked
                else none
              match unprofitableEarlyReturn with
              | some r => r
              | none =>
                  match signAndSendTransaction env env.replSignOk
                      env.replSendOk (buildReplacementTx oldTx newGasPrice) with
                  | .error msg => .fail msg
                  | .ok sent => .ok (some sent)

/-- `handleStuckTransaction`: on a replacement error, attempt a cancel and
report `TxFailed` with `transaction cancelled due to timeout` on success;
on a nil replacement error the code dereferences the returned transaction
(`newTx.Hash()`), which is a nil-pointer crash whenever the replacement
value is nil. -/
def handleStuckTransaction (env : EvmEnv) : StuckOutcome :=
  match replaceTransaction env with
  | .fail _ =>
      match cancelTransaction env with
      | .ok (some _) => .returned .failed "transaction cancelled due to timeout"
      | .ok none => .panicked
      | .fail _ => .returned .failed "failed to cancel stuck transaction"
      | .panicked => .panicked
  | .panicked => .panicked
  | .ok none => .panicked
  | .ok (some _) => .returned .needsRetry ""

/-! ## Chain registry: chainmanager/registry.go -/

/-- An abstract chain adapter handle held by the registry (its internals
are irrelevant to the registry's bookkeeping). -/
structure ChainHandle where
  tag : Nat
  deriving Repr, DecidableEq

/-- The registry's chain map, `chain_id → Chain` (absent = Go's nil). -/
structure RegistryState where
  chains : Nat → Option ChainHandle

/-- `blockchainRegistry.Add`: call the factory's `CreateChain`; on error
return that error without touching the map; on success store the new chain
under the config's chain id. -/
def registryAdd (createChainResult : Except String ChainHandle)
    (cfgChainId : Nat) (st : RegistryState) :
    Except String Unit × RegistryState :=
  match createChainResult with
  | .error e => (.error e, st)
  | .ok chain =>
      (.ok (),
       { chains := fun chainId =>
           if chainId = cfgChainId then some chain else st.chains chainId })

/-- `blockchainRegistry.Get`: plain map lookup. -/
def registryGet (st : RegistryState) (chainID : Nat) : Option ChainHandle :=
  st.chains chainID

/-! ## Solana confirmation waiter: chains/solana/wait_transaction.go -/

/-- `MaxValidSlots = 160` (150 plus a safety margin of 10 slots). -/
def MaxValidSlots : Nat := 160

/-- Solana signature confirmation levels. -/
inductive SolConfirmationStatus where
  | processed
  | confirmed
  | finalized
  deriving Repr, DecidableEq

/-- The part of a `getSignatureStatuses` entry the waiter inspects:
whether `Err` is non-nil and the confirmation status. -/
structure SignatureStatus where
  errPresent : Bool
  confirmationStatus : SolConfirmationStatus
  deriving Repr, DecidableEq

/-- What one polling iteration of the Solana waiter does. -/
inductive SolPollAction where
  | returnFailed
  | returnDone
  | returnNeedsRetry
  | keepPolling
  deriving Repr, DecidableEq

/-- RPC results visible to one polling iteration:
the signature-status lookup (absent status = Go's nil entry) and the
`IsBlockhashValid` result with the slot of its RPC context. -/
structure SolEnv where
  signatureStatus : Except Unit (Option SignatureStatus)
  blockhashValid : Except Unit (Bool × Nat)

/-- Go `uint64` subtraction `a - b` (wrapping), for `a b < 2 ^ 64`. -/
def u64Sub (a b : Nat) : Nat := (a + 2 ^ 64 - b) % 2 ^ 64

/-- One `ticker.C` iteration of `WaitTransactionConfirmation` for Solana:
status-fetch errors keep polling; a present status returns `Failed` on a
non-nil `Err`, `Done` when finalized, else keeps polling; an absent status
checks blockhash validity and returns `NeedsRetry` only when the slot
difference exceeds `MaxValidSlots` and the blockhash is no longer
valid. -/
def solanaPollStep (env : SolEnv) (blockhashSlot : Nat) : SolPollAction :=
  match env.signatureStatus with
  | .error _ => .keepPolling
  | .ok (some status) =>
      if status.errPresent then .returnFailed
      else if status.confirmationStatus = .finalized then .returnDone
      else .keepPolling
  | .ok none =>
      match env.blockhashValid with
      | .error _ => .keepPolling
      | .ok (isValid, currentSlot) =>
          let slotDifference := u64Sub currentSlot blockhashSlot
          if slotDifference > MaxValidSlots then
            if isValid then .keepPolling else .returnNeedsRetry
          else .keepPolling

/-! ## EVM HTTP polling: chains/evm/handler/http.go -/

/-- `maxBlockRange = 1000`. -/
def maxBlockRange : Nat := 1000

/-- RPC results visible to one `pollEvents` tick: the head-block query and
the success of the two concurrent `FilterLogs` queries. -/
structure PollEnv where
  blockNumber : Except Unit Nat
  relayLogsOk : Bool
  transferLogsOk : Bool

/-- Result of one `pollEvents` tick: whether it returned without error,
the new `lastProcessedBlock`, and the block range passed to the two
`FilterLogs` queries (`none` = no query issued, hence no events
emitted). -/
structure PollOutcome where
  ok : Bool
  lastProcessedBlock : Nat
  queriedRange : Option (Nat × Nat)
  deriving Repr, DecidableEq

/-- `pollEvents`: bootstrap (`lastProcessedBlock = 0`) records the head
and emits nothing; a head at or below the last processed block does
nothing; otherwise the window `[last+1, min(last+1000, head)]` is queried
and `lastProcessedBlock` advances to its upper bound exactly when both
log queries succeed. -/
def pollEvents (env : PollEnv) (lastProcessedBlock : Nat) : PollOutcome :=
  match env.blockNumber with
  | .error _ => ⟨false, lastProcessedBlock, none⟩
  | .ok currentBlock =>
      let fromBlock := lastProcessedBlock
      if fromBlock = 0 then ⟨true, currentBlock, none⟩
      else if currentBlock ≤ fromBlock then ⟨true, fromBlock, none⟩
      else
        let toBlock' := fromBlock + maxBlockRange
        let toBlock := if toBlock' > currentBlock then currentBlock else toBlock'
        if env.relayLogsOk = true ∧ env.transferLogsOk = true then
          ⟨true, toBlock, some (fromBlock + 1, toBlock)⟩
        else ⟨false, fromBlock, some (fromBlock + 1, toBlock)⟩

/-! ## Persistence layer: dbconfig/intents.go

The `intent` table is modelled as a list of rows; each SQL statement
becomes a function from the old table (plus the statement's parameters)
to the new table and the rows it returns.  Timestamps are `Int` instants,
the big-decimal amount columns are the decimal strings the code stores.
-/

/-- Intent lifecycle statuses (stored capitals `CREATED`/`PENDING`/…). -/
inductive IntentStatus where
  | created
  | pending
  | done
  | failed
  deriving Repr, DecidableEq

/-- One row of the `intent` table, with every column the embedded
statements read or write. -/
structure IntentRow where
  id : Nat
  quoteId : String
  fromChainId : Nat
  fromTokenAddress : String
  fromAmount : String
  toChainId : Nat
  toTokenAddress : String
  toAmount : String
  userAddress : String
  recipientAddress : String
  fromTx : String
  fromNonce : Nat
  toTx : Option String
  toNonce : Option Nat
  status : IntentStatus
  subStatus : Option String
  quoteRequestedAt : Int
  fromTxMinedAt : Int
  toTxSetAt : Option Int
  toTxMinedAt : Option Int
  refund : Bool
  refundTx : Option String
  refundTxSetAt : Option Int
  refundTxMinedAt : Option Int
  blockHash : String
  quorum : Nat
  retries : Nat
  deriving Repr, DecidableEq

/-- The 22 values `InsertIntent` binds from the `types.Intent` argument
(amounts already rendered as decimal strings). -/
structure IntentArgs where
  quoteId : String
  fromChain : Nat
  fromToken : String
  fromAmount : String
  toChain : Nat
  toToken : String
  toAmount : String
  userAddress : String
  recipientAddress : String
  fromTx : String
  fromNonce : Nat
  status : IntentStatus
  subStatus : Option String
  requestedAt : Int
  fromTxMinedAt : Int
  toTxSetAt : Option Int
  toTxMinedAt : Option Int
  refund : Bool
  refundTx : Option String
  refundTxSetAt : Option Int
  refundTxMinedAt : Option Int
  blockHash : String
  deriving Repr, DecidableEq

/-- The row a conflict-free `InsertIntent` creates: the 22 bound columns,
the literal `quorum = 1`, and table defaults for the remaining columns
(`id` from the serial sequence, null `to_tx`/`to_nonce`, zero
`retries`). -/
def newIntentRow (nextId : Nat) (i : IntentArgs) : IntentRow :=
  { id := nextId, quoteId := i.quoteId, fromChainId := i.fromChain
    fromTokenAddress := i.fromToken, fromAmount := i.fromAmount
    toChainId := i.toChain, toTokenAddress := i.toToken
    toAmount := i.toAmount, userAddress := i.userAddress
    recipientAddress := i.recipientAddress, fromTx := i.fromTx
    fromNonce := i.fromNonce, toTx := none, toNonce := none
    status := i.status, subStatus := i.subStatus
    quoteRequestedAt := i.requestedAt, fromTxMinedAt := i.fromTxMinedAt
    toTxSetAt := i.toTxSetAt, toTxMinedAt := i.toTxMinedAt
    refund := i.refund, refundTx := i.refundTx
    refundTxSetAt := i.refundTxSetAt, refundTxMinedAt := i.refundTxMinedAt
    blockHash := i.blockHash, quorum := 1, retries := 0 }

/-- The `ON CONFLICT (quote_id, block_hash)` target. -/
def intentKeyMatch (r : IntentRow) (i : IntentArgs) : Bool :=
  r.quoteId = i.quoteId && r.blockHash = i.blockHash

/-- `InsertIntent`: insert the new row with `quorum = 1`, or on a
`(quote_id, block_hash)` conflict run `DO UPDATE SET
quorum = intent.quorum + 1` on the conflicting row. -/
def insertIntent (nextId : Nat) (i : IntentArgs) (db : List IntentRow) :
    List IntentRow :=
  if db.any (fun r => intentKeyMatch r i) then
    db.map (fun r =>
      if intentKeyMatch r i then { r with quorum := r.quorum + 1 } else r)
  else db ++ [newIntentRow nextId i]

/-- The `WHERE` clause of `GetCreatedIntents`'s CTE:
`status = CREATED AND quorum >= 1 AND from_tx_mined_at > now − EXPIRATION`. -/
def createdEligible (expirationTime : Int) (r : IntentRow) : Bool :=
  decide (r.status = IntentStatus.created ∧ 1 ≤ r.quorum
    ∧ expirationTime < r.fromTxMinedAt)

/-- `GetCreatedIntents`: one atomic statement selects up to 100 eligible
rows, flips exactly those rows to `PENDING` (joined back on `id`), and
returns the selected rows' pre-update snapshots.  Result: (returned
snapshots, new table). -/
def getCreatedIntents (now expiration : Int) (db : List IntentRow) :
    List IntentRow × List IntentRow :=
  let expirationTime := now - expiration
  let selected := (db.filter (createdEligible expirationTime)).take 100
  (selected,
   db.map (fun r =>
     if selected.any (fun s => s.id = r.id) then
       { r with status := IntentStatus.pending }
     else r))

/-- The `Transaction` record filled by `GetPendingTransactionsByChain`'s
row scan. -/
structure TxRec where
  hash : String
  quoteId : String
  nonce : Nat
  token : String
  fromAddr : String
  toAddr : String
  toAmount : String
  fromAmount : String
  chainId : Nat
  deriving Repr, DecidableEq

/-- The `WHERE` clause of `GetPendingTransactionsByChain`:
`status = PENDING AND to_tx_set_at > now − EXPIRATION` (a null
`to_tx_set_at` fails the comparison). -/
def pendingTxEligible (expirationTime : Int) (r : IntentRow) : Bool :=
  decide (r.status = IntentStatus.pending) &&
    match r.toTxSetAt with
    | some t => decide (expirationTime < t)
    | none => false

/-- The `rows.Scan` of `GetPendingTransactionsByChain`: the columns come
back in SQL order `chain_id, hash, quote_id, nonce, "from", "to", token,
to_amount, from_amount` but are scanned into
`chainID, Hash, QuoteID, Nonce, Token, From, To, ToAmount, FromAmount`,
so `Token` receives `user_address`, `From` receives `recipient_address`
and `To` receives `to_token_address`. -/
def scanPendingTx (r : IntentRow) : TxRec :=
  { hash := r.toTx.getD "", quoteId := r.quoteId, nonce := r.toNonce.getD 0
    token := r.userAddress
    fromAddr := r.recipientAddress
    toAddr := r.toTokenAddress
    toAmount := r.toAmount, fromAmount := r.fromAmount
    chainId := r.toChainId }

/-- `ORDER BY i.to_chain_id, i.to_nonce`. -/
def pendingTxOrder (a b : IntentRow) : Prop :=
  a.toChainId < b.toChainId ∨
    (a.toChainId = b.toChainId ∧ a.toNonce.getD 0 ≤ b.toNonce.getD 0)

instance : DecidableRel pendingTxOrder := fun a b => by
  unfold pendingTxOrder
  infer_instance

/-- `GetPendingTransactionsByChain`: filter the pending unexpired rows,
order them by `(to_chain_id, to_nonce)`, and group the scanned
transactions by destination chain id. -/
def getPendingTransactionsByChain (now expiration : Int)
    (db : List IntentRow) : Nat → List TxRec :=
  let expirationTime := now - expiration
  let rows := (db.filter (pendingTxEligible expirationTime)).insertionSort
    pendingTxOrder
  fun chainId =>
    (rows.filter (fun r => r.toChainId = chainId)).map scanPendingTx

end RelayLib

namespace RelayLib

/-- C5: the replacement gas price is the maximum of the current network
gas price and `old * 110 / 100`. -/
theorem getNewGasPrice_eq_max (cur : Nat) (oldTx : EthTx) :
    getNewGasPrice (.ok cur) oldTx =
      .ok (max cur (oldTx.gasPriceValue * 110 / 100)) := by
  unfold getNewGasPrice
  simp only [gasIncreaseFactor]
  rw [Nat.max_def]
  split <;> split <;> first | rfl | omega

/-- Every character `hexDigit` can produce is one of the sixteen lowercase
hex digits (the default `'0'` included). -/
theorem hexDigit_mem (n : Nat) : hexDigit n ∈ hexDigits := by
  unfold hexDigit
  rcases Nat.lt_or_ge n 16 with h | h
  · interval_cases n <;> decide
  · rw [List.getD_eq_default _ _ (by simpa [hexDigits] using h)]
    decide

/-- Every character of a `hexEncodeToString` output is a lowercase hex
digit. -/
theorem hexEncodeToString_lower (bs : List Nat) :
    ∀ c ∈ (hexEncodeToString bs).toList, c ∈ hexDigits := by
  intro c hc
  simp only [hexEncodeToString, String.toList, String.mk, List.mem_flatten,
    List.mem_map] at hc
  obtain ⟨l, ⟨b, _, rfl⟩, hcl⟩ := hc
  simp only [List.mem_cons, List.not_mem_nil, or_false] at hcl
  rcases hcl with h | h
  · exact h ▸ hexDigit_mem _
  · exact h ▸ hexDigit_mem _

/-- C8: reading calldata laid out as selector (4 bytes) ++ first arg
(32 bytes) ++ second arg (32 bytes) ++ quoteId (32 bytes) yields the
lowercase hex encoding of the quoteId, and any input of length at most
68 bytes is rejected with an error. -/
theorem extractQuoteID_roundtrip_and_short_input
    (sel a b q d : List Nat)
    (hsel : sel.length = 4) (ha : a.length = 32) (hb : b.length = 32)
    (hq : q.length = 32) (hd : d.length ≤ 68) :
    ExtractQuoteIDFromTxData (sel ++ a ++ b ++ q) = .ok (hexEncodeToString q)
      ∧ (∀ c ∈ (hexEncodeToString q).toList, c ∈ hexDigits)
      ∧ ∃ msg, ExtractQuoteIDFromTxData d = .error msg := by
  refine ⟨?_, hexEncodeToString_lower q, ?_⟩
  · have hlen : (sel ++ a ++ b).length = 68 := by
      simp [hsel, ha, hb]
    have hdrop : (sel ++ a ++ b ++ q).drop 68 = q := by
      have : sel ++ a ++ b ++ q = (sel ++ a ++ b) ++ q := by
        simp [List.append_assoc]
      rw [this, ← hlen, List.drop_left]
    unfold ExtractQuoteIDFromTxData
    rw [if_neg (by simp [minTransferInputLength, hsel, ha, hb, hq])]
    simp only [minTransferInputLength, hdrop]
    rw [if_neg (by simp [hq])]
  · refine ⟨"invalid transaction input length", ?_⟩
    unfold ExtractQuoteIDFromTxData
    rw [if_pos (by simpa [minTransferInputLength] using hd)]

/-- A concrete pending legacy transaction stuck in the mempool: nonce 7,
gas limit 90000, gas price 20, paying 500 wei to the recipient. -/
def oldStuckTx : EthTx := mkLegacyTx 1 7 "0xRECIPIENT" 500 90000 20 [1, 2, 3]

/-- Environment of a stuck-transaction run in which the original is still
pending, the profitability check fails, and the cancel transaction is
accepted by the network. -/
def unprofitableEnv : EvmEnv :=
  { clientInit := true, signerInit := true, signerAddress := "0xSOLVER"
    cfgTxType := 0, cfgChainId := 1
    replTxByHash := .ok (oldStuckTx, true)
    currentGasPrice := .ok 100
    profitable := false
    replSignOk := true, replSendOk := true
    cancTxByHash := .ok (oldStuckTx, true)
    cancSignOk := true, cancSendOk := true }

/-- Same run, except the cancel attempt errors (the cancel-path
transaction lookup fails). -/
def unprofitableCancelFailEnv : EvmEnv :=
  { unprofitableEnv with cancTxByHash := .error () }

/-- Environment of a stuck-transaction run in which the original
transaction is no longer pending by the time it is looked up. -/
def notPendingEnv : EvmEnv :=
  { unprofitableEnv with
    profitable := true
    replTxByHash := .ok (oldStuckTx, false) }

/--
C3: on an unprofitable stuck transaction the code does submit the
self-send zero-value cancel at the same nonce with gas price
`old * 150 / 100 = 30`, but `replaceTransaction` then returns `(nil, nil)`
and `handleStuckTransaction` dereferences the nil replacement — a crash —
instead of returning `Failed` with reason
`transaction cancelled due to timeout`; and when the cancel attempt fails,
the unprofitable replacement is signed and submitted anyway.
-/
theorem unprofitableStuckTx_divergence :
    cancelTransaction unprofitableEnv =
        .ok (some (mkLegacyTx 1 7 "0xSOLVER" 0 21000 30 []))
      ∧ replaceTransaction unprofitableEnv = .ok none
      ∧ handleStuckTransaction unprofitableEnv = .panicked
      ∧ handleStuckTransaction unprofitableEnv ≠
          .returned .failed "transaction cancelled due to timeout"
      ∧ replaceTransaction unprofitableCancelFailEnv =
          .ok (some (buildReplacementTx oldStuckTx 100)) := by
  refine ⟨by decide, by decide, by decide, by decide, by decide⟩

/--
C9: `replaceTransaction` can return a nil error together with a nil
replacement transaction — both when the original is no longer pending and
when an unprofitable transaction was successfully cancelled — and
`handleStuckTransaction` then crashes dereferencing the nil replacement
hash, refuting the claimed nil-safety.
-/
theorem replaceTransaction_nilError_nilTx :
    replaceTransaction notPendingEnv = .ok none
      ∧ handleStuckTransaction notPendingEnv = .panicked
      ∧ replaceTransaction unprofitableEnv = .ok none
      ∧ handleStuckTransaction unprofitableEnv = .panicked := by
  refine ⟨by decide, by decide, by decide, by decide⟩

/-- C10: when the factory's `CreateChain` fails, `Add` returns exactly
that error and the chain map is untouched: `Get` answers the same for
every chain id as before the failed `Add`. -/
theorem registryAdd_factoryError_frame (msg : String) (cfgChainId : Nat)
    (st : RegistryState) :
    (registryAdd (.error msg) cfgChainId st).1 = .error msg
      ∧ ∀ chainId,
          registryGet (registryAdd (.error msg) cfgChainId st).2 chainId =
            registryGet st chainId :=
  ⟨rfl, fun _ => rfl⟩

/-- C7: one Solana polling iteration returns `Failed` on a present status
with a non-nil `Err`, `Done` on a present error-free finalized status;
with an absent status and a slot difference above 160 it returns
`NeedsRetry` exactly when the blockhash is reported invalid, and keeps
polling when the difference is at most 160. -/
theorem solanaPollStep_behaviour (blockhashSlot currentSlot : Nat)
    (s : SignatureStatus) (bv : Except Unit (Bool × Nat)) (isValid : Bool)
    (hle : blockhashSlot ≤ currentSlot) (hcur : currentSlot < 2 ^ 64) :
    (s.errPresent = true →
        solanaPollStep ⟨.ok (some s), bv⟩ blockhashSlot = .returnFailed)
      ∧ (s.errPresent = false → s.confirmationStatus = .finalized →
          solanaPollStep ⟨.ok (some s), bv⟩ blockhashSlot = .returnDone)
      ∧ (currentSlot - blockhashSlot > MaxValidSlots →
          (solanaPollStep ⟨.ok none, .ok (isValid, currentSlot)⟩ blockhashSlot
              = .returnNeedsRetry ↔ isValid = false))
      ∧ (currentSlot - blockhashSlot ≤ MaxValidSlots →
          solanaPollStep ⟨.ok none, .ok (isValid, currentSlot)⟩ blockhashSlot
            = .keepPolling) := by
  have hdiff : u64Sub currentSlot blockhashSlot = currentSlot - blockhashSlot := by
    unfold u64Sub
    omega
  refine ⟨fun he => ?_, fun he hf => ?_, fun hgt => ?_, fun hle' => ?_⟩
  · simp [solanaPollStep, he]
  · simp [solanaPollStep, he, hf]
  · simp only [solanaPollStep, hdiff, if_pos hgt]
    cases isValid <;> simp
  · simp only [solanaPollStep, hdiff]
    rw [if_neg (by omega)]

/-- Witness for C7: a failed status, a finalized status, an expired
invalid blockhash at slot difference 161, an expired valid blockhash, and
a fresh blockhash at difference 160. -/
theorem solanaPollStep_behaviour_witness :
    ((⟨true, .processed⟩ : SignatureStatus).errPresent = true →
        solanaPollStep ⟨.ok (some ⟨true, .processed⟩), .error ()⟩ 100
          = .returnFailed)
      ∧ ((⟨true, .processed⟩ : SignatureStatus).errPresent = false →
          (⟨true, .processed⟩ : SignatureStatus).confirmationStatus
              = .finalized →
          solanaPollStep ⟨.ok (some ⟨true, .processed⟩), .error ()⟩ 100
            = .returnDone)
      ∧ (261 - 100 > MaxValidSlots →
          (solanaPollStep ⟨.ok none, .ok (false, 261)⟩ 100 = .returnNeedsRetry
            ↔ false = false))
      ∧ (261 - 100 ≤ MaxValidSlots →
          solanaPollStep ⟨.ok none, .ok (false, 261)⟩ 100 = .keepPolling) :=
  solanaPollStep_behaviour 100 261 ⟨true, .processed⟩ (.error ()) false
    (by decide) (by norm_num)

/-- C6: a `pollEvents` tick with a fresh state records the current head
and queries nothing; otherwise, for a head beyond the last processed
block, it queries exactly the window `[last+1, min(last+1000, head)]`,
advances to the window's upper bound when both log queries succeed, and
keeps `lastProcessedBlock` unchanged (reporting the error) when either
fails; a head at or below the last processed block queries nothing and
changes nothing. -/
theorem pollEvents_window (env : PollEnv) (last head : Nat)
    (hhead : env.blockNumber = .ok head) :
    (last = 0 → pollEvents env last = ⟨true, head, none⟩)
      ∧ (last ≠ 0 → head > last →
          (pollEvents env last).queriedRange
              = some (last + 1, min (last + 1000) head)
            ∧ (env.relayLogsOk = true → env.transferLogsOk = true →
                pollEvents env last
                  = ⟨true, min (last + 1000) head,
                      some (last + 1, min (last + 1000) head)⟩)
            ∧ (env.relayLogsOk = false ∨ env.transferLogsOk = false →
                (pollEvents env last).lastProcessedBlock = last
                  ∧ (pollEvents env last).ok = false))
      ∧ (last ≠ 0 → head ≤ last → pollEvents env last = ⟨true, last, none⟩) := by
  have hmin : (if last + maxBlockRange > head then head else last + maxBlockRange)
      = min (last + 1000) head := by
    unfold maxBlockRange
    rw [Nat.min_def]
    split <;> split <;> omega
  refine ⟨fun h0 => ?_, fun h0 hgt => ?_, fun h0 hle => ?_⟩
  · simp [pollEvents, hhead, h0]
  · have hnot : ¬ head ≤ last := by omega
    refine ⟨?_, fun hr ht => ?_, fun hfail => ?_⟩
    · simp only [pollEvents, hhead, if_neg h0, if_neg hnot, hmin]
      split <;> rfl
    · simp only [pollEvents, hhead, if_neg h0, if_neg hnot, hmin, hr, ht,
        and_self, if_pos]
    · simp only [pollEvents, hhead, if_neg h0, if_neg hnot, hmin]
      rw [if_neg (by rcases hfail with h | h <;> simp [h])]
      exact ⟨rfl, rfl⟩
  · simp [pollEvents, hhead, h0, hle]

/-- Witness for C6: bootstrap at head 50, a successful window poll from
last = 10 with head 2000 (window `[11, 1010]`), and a no-op poll when the
head equals the last processed block. -/
theorem pollEvents_window_witness :
    ((10 : Nat) = 0 → pollEvents ⟨.ok 2000, true, true⟩ 10 = ⟨true, 2000, none⟩)
      ∧ ((10 : Nat) ≠ 0 → 2000 > 10 →
          (pollEvents ⟨.ok 2000, true, true⟩ 10).queriedRange
              = some (11, min 1010 2000)
            ∧ (true = true → true = true →
                pollEvents ⟨.ok 2000, true, true⟩ 10
                  = ⟨true, min 1010 2000, some (11, min 1010 2000)⟩)
            ∧ (true = false ∨ true = false →
                (pollEvents ⟨.ok 2000, true, true⟩ 10).lastProcessedBlock = 10
                  ∧ (pollEvents ⟨.ok 2000, true, true⟩ 10).ok = false))
      ∧ ((10 : Nat) ≠ 0 → 2000 ≤ 10 →
          pollEvents ⟨.ok 2000, true, true⟩ 10 = ⟨true, 10, none⟩) :=
  pollEvents_window ⟨.ok 2000, true, true⟩ 10 2000 rfl

/-- Mapping a function that leaves non-matching elements alone over a
list without matches is the identity. -/
theorem map_ite_id_of_not {α : Type} (p : α → Bool) (g : α → α)
    (l : List α) (h : ∀ x ∈ l, p x = false) :
    l.map (fun x => if p x then g x else x) = l := by
  induction l with
  | nil => rfl
  | cons a t ih =>
      simp only [List.map_cons]
      rw [if_neg (by simp [h a (List.mem_cons_self a t)]),
        ih (fun x hx => h x (List.mem_cons_of_mem a hx))]

/-- C1: a conflict-free `InsertIntent` appends exactly the new row, whose
quorum is 1; an `InsertIntent` whose `(quote_id, block_hash)` matches an
existing row (the table's unique key, so no other row matches) rewrites
the table to the same rows with only that row's quorum incremented by 1
and every other column of it untouched. -/
theorem insertIntent_upsert (nextId : Nat) (i : IntentArgs)
    (db pre post : List IntentRow) (r : IntentRow)
    (hfresh : ∀ x ∈ db, intentKeyMatch x i = false)
    (hr : intentKeyMatch r i = true)
    (hpre : ∀ x ∈ pre, intentKeyMatch x i = false)
    (hpost : ∀ x ∈ post, intentKeyMatch x i = false) :
    (insertIntent nextId i db = db ++ [newIntentRow nextId i]
        ∧ (newIntentRow nextId i).quorum = 1)
      ∧ insertIntent nextId i (pre ++ r :: post)
          = pre ++ { r with quorum := r.quorum + 1 } :: post := by
  constructor
  · refine ⟨?_, rfl⟩
    unfold insertIntent
    rw [if_neg (fun hany => by
      obtain ⟨x, hx, hpx⟩ := List.any_eq_true.mp hany
      simp [hfresh x hx] at hpx)]
  · unfold insertIntent
    rw [if_pos (List.any_eq_true.mpr
      ⟨r, List.mem_append_right _ (List.mem_cons_self r post), hr⟩)]
    simp only [List.map_append, List.map_cons, hr, if_true,
      map_ite_id_of_not _ _ pre hpre, map_ite_id_of_not _ _ post hpost]

/-- The intent whose observation the sample scenarios insert. -/
def sampleArgs : IntentArgs :=
  { quoteId := "0xQ", fromChain := 1, fromToken := "0xA"
    fromAmount := "1000", toChain := 10, toToken := "0xB"
    toAmount := "995", userAddress := "0xU", recipientAddress := "0xR"
    fromTx := "0xF", fromNonce := 3, status := .created, subStatus := none
    requestedAt := 7, fromTxMinedAt := 90, toTxSetAt := none
    toTxMinedAt := none, refund := false, refundTx := none
    refundTxSetAt := none, refundTxMinedAt := none, blockHash := "0xBH" }

/-- A stored row for a different quote (no key conflict). -/
def sampleOtherRow : IntentRow :=
  newIntentRow 1 { sampleArgs with quoteId := "0xQ2" }

/-- A stored row for the same `(quote_id, block_hash)` as `sampleArgs`. -/
def sampleConflictRow : IntentRow := newIntentRow 2 sampleArgs

/-- Witness for C1: inserting into a table without the key appends the
quorum-1 row; inserting into a table holding the key only bumps that
row's quorum. -/
theorem insertIntent_upsert_witness :
    (insertIntent 3 sampleArgs [sampleOtherRow]
          = [sampleOtherRow] ++ [newIntentRow 3 sampleArgs]
        ∧ (newIntentRow 3 sampleArgs).quorum = 1)
      ∧ insertIntent 3 sampleArgs ([sampleOtherRow] ++ sampleConflictRow :: [])
          = [sampleOtherRow] ++
              { sampleConflictRow with
                  quorum := sampleConflictRow.quorum + 1 } :: [] :=
  insertIntent_upsert 3 sampleArgs [sampleOtherRow] [sampleOtherRow] []
    sampleConflictRow (by decide) (by decide) (by decide) (by decide)

/-- C2: every row `GetCreatedIntents` returns satisfied
`status = CREATED ∧ quorum ≥ 1 ∧ from_tx_mined_at > now − EXPIRATION` at
selection time (so the snapshot still shows `CREATED`); at most 100 rows
are returned; each returned row is a pre-update snapshot of a table row;
and the same statement leaves the table the same length, turning exactly
the rows whose id was selected to `PENDING` and no others. -/
theorem getCreatedIntents_contract (now expiration : Int)
    (db : List IntentRow) :
    (∀ r ∈ (getCreatedIntents now expiration db).1,
        r.status = IntentStatus.created ∧ 1 ≤ r.quorum
          ∧ now - expiration < r.fromTxMinedAt)
      ∧ (getCreatedIntents now expiration db).1.length ≤ 100
      ∧ (∀ r ∈ (getCreatedIntents now expiration db).1, r ∈ db)
      ∧ (getCreatedIntents now expiration db).2.length = db.length
      ∧ ∀ k, (hk : k < db.length) →
          (hk2 : k < (getCreatedIntents now expiration db).2.length) →
          (db.get ⟨k, hk⟩ ∈ (getCreatedIntents now expiration db).1 →
              (getCreatedIntents now expiration db).2.get ⟨k, hk2⟩
                = { db.get ⟨k, hk⟩ with status := IntentStatus.pending })
            ∧ ((∀ s ∈ (getCreatedIntents now expiration db).1,
                  s.id ≠ (db.get ⟨k, hk⟩).id) →
                (getCreatedIntents now expiration db).2.get ⟨k, hk2⟩
                  = db.get ⟨k, hk⟩) := by
  refine ⟨?_, ?_, ?_, ?_, ?_⟩
  · intro r hr
    simp only [getCreatedIntents] at hr
    have hf := List.take_subset 100 _ hr
    have := (List.mem_filter.mp hf).2
    exact of_decide_eq_true this
  · simp only [getCreatedIntents, List.length_take]
    exact Nat.min_le_left _ _
  · intro r hr
    simp only [getCreatedIntents] at hr
    exact List.mem_of_mem_filter (List.take_subset 100 _ hr)
  · simp only [getCreatedIntents, List.length_map]
  · intro k hk hk2
    simp only [getCreatedIntents, List.get_eq_getElem, List.getElem_map]
    constructor
    · intro hmem
      rw [if_pos (List.any_eq_true.mpr ⟨_, hmem, by simp⟩)]
    · intro hne
      rw [if_neg (fun hany => by
        obtain ⟨s, hs, hdec⟩ := List.any_eq_true.mp hany
        exact hne s hs (of_decide_eq_true hdec))]

/-- An eligible CREATED row stored in the sample table. -/
def sampleCreatedRow : IntentRow :=
  { newIntentRow 4 { sampleArgs with quoteId := "0xQ3" } with quorum := 2 }

/-- Witness for C2 on a concrete table `[sampleCreatedRow,
sampleConflictRow]` at `now = 100`, `EXPIRATION = 50`. -/
theorem getCreatedIntents_contract_witness :
    (∀ r ∈ (getCreatedIntents 100 50 [sampleCreatedRow, sampleConflictRow]).1,
        r.status = IntentStatus.created ∧ 1 ≤ r.quorum
          ∧ 100 - 50 < r.fromTxMinedAt)
      ∧ (getCreatedIntents 100 50 [sampleCreatedRow, sampleConflictRow]).1.length
          ≤ 100
      ∧ (∀ r ∈ (getCreatedIntents 100 50
            [sampleCreatedRow, sampleConflictRow]).1,
          r ∈ [sampleCreatedRow, sampleConflictRow])
      ∧ (getCreatedIntents 100 50 [sampleCreatedRow, sampleConflictRow]).2.length
          = ([sampleCreatedRow, sampleConflictRow] : List IntentRow).length
      ∧ ∀ k, (hk : k < ([sampleCreatedRow, sampleConflictRow] :
            List IntentRow).length) →
          (hk2 : k < (getCreatedIntents 100 50
              [sampleCreatedRow, sampleConflictRow]).2.length) →
          (([sampleCreatedRow, sampleConflictRow] : List IntentRow).get ⟨k, hk⟩
                ∈ (getCreatedIntents 100 50
                    [sampleCreatedRow, sampleConflictRow]).1 →
              (getCreatedIntents 100 50
                  [sampleCreatedRow, sampleConflictRow]).2.get ⟨k, hk2⟩
                = { ([sampleCreatedRow, sampleConflictRow] :
                      List IntentRow).get ⟨k, hk⟩ with
                      status := IntentStatus.pending })
            ∧ ((∀ s ∈ (getCreatedIntents 100 50
                    [sampleCreatedRow, sampleConflictRow]).1,
                  s.id ≠ (([sampleCreatedRow, sampleConflictRow] :
                      List IntentRow).get ⟨k, hk⟩).id) →
                (getCreatedIntents 100 50
                    [sampleCreatedRow, sampleConflictRow]).2.get ⟨k, hk2⟩
                  = ([sampleCreatedRow, sampleConflictRow] :
                      List IntentRow).get ⟨k, hk⟩) :=
  getCreatedIntents_contract 100 50 [sampleCreatedRow, sampleConflictRow]

/-- A fulfilled-in-flight row: `PENDING`, destination tx hash `0xHASH` at
nonce 5, recently set. -/
def samplePendingRow : IntentRow :=
  { newIntentRow 5 sampleArgs with
      status := .pending, toTx := some "0xHASH", toNonce := some 5
      toTxSetAt := some 90 }

/--
C4: on a table holding one recent `PENDING` row, the `Transaction` built
by `GetPendingTransactionsByChain` has `From = recipient_address`,
`To = to_token_address` and `Token = user_address` — the scan misaligns
the SQL column order `"from", "to", token` with the struct fields — so
the claimed mapping `From = user_address` fails.
-/
theorem getPendingTransactionsByChain_scan_swap :
    getPendingTransactionsByChain 100 50 [samplePendingRow] 10
        = [{ hash := "0xHASH", quoteId := "0xQ", nonce := 5
             token := "0xU", fromAddr := "0xR", toAddr := "0xB"
             toAmount := "995", fromAmount := "1000", chainId := 10 }]
      ∧ samplePendingRow.userAddress = "0xU"
      ∧ samplePendingRow.recipientAddress = "0xR"
      ∧ samplePendingRow.toTokenAddress = "0xB"
      ∧ (scanPendingTx samplePendingRow).fromAddr
          ≠ samplePendingRow.userAddress := by
  exact ⟨by decide, rfl, rfl, rfl, by decide⟩

/-- Witness for C8 at a concrete calldata layout and a concrete short
input. -/
theorem extractQuoteID_roundtrip_witness :
    ExtractQuoteIDFromTxData
        (List.replicate 4 1 ++ List.replicate 32 2 ++ List.replicate 32 3 ++
          List.replicate 32 171) =
        .ok (hexEncodeToString (List.replicate 32 171))
      ∧ (∀ c ∈ (hexEncodeToString (List.replicate 32 171)).toList,
          c ∈ hexDigits)
      ∧ ∃ msg, ExtractQuoteIDFromTxData (List.replicate 68 0) = .error msg :=
  extractQuoteID_roundtrip_and_short_input _ _ _ _ _
    (by decide) (by decide) (by decide) (by decide) (by decide)

end RelayLib
